import Mathlib

/-!
Verification development for the android-container-platform lifecycle core.

The definitions below are a shallow embedding of the Python sources:

* `services/lifecycle-manager/redroid_manager.py` — port pools and
  container creation (`RedroidManager._allocate_port`, `_release_port`,
  `create_container`);
* `services/lifecycle-manager/main.py` — the instance state machine
  (`create_container_async`, `check_instance_health`, `start_instance`,
  `stop_instance`, `restart_instance`, `delete_instance`);
* `services/lifecycle-manager/container_orchestrator.py` —
  `ContainerOrchestrator.remove_container`;
* `services/network-manager/network_isolator.py` — namespace registry and
  iptables rule state (`create_namespace`, `destroy_namespace`,
  `_setup_namespace_iptables`, `_cleanup_namespace_iptables`,
  `_setup_default_iptables`).

External effects (docker calls, subprocess invocations, HTTP calls to peer
services) are modelled by explicit failure-injection parameters and by
traces of the calls the state machine makes into its collaborators.
Machine randomness (`random.choice`) is modelled by an arbitrary index
into the sorted list of candidates.  Timestamps are abstract `Nat` ticks.
-/

namespace ACP

/-- The two port pools of `RedroidManager`: remote-display (vnc) and
debug-bridge (adb). -/
inductive PortType where
  | vnc
  | adb
deriving DecidableEq, Repr

/-- The mutable port state of `RedroidManager`: the `used_ports` sets.
The pools themselves (`port_pool` below) are fixed at construction and
never mutated by the source. -/
structure PortState where
  used_vnc : Finset Nat
  used_adb : Finset Nat
deriving DecidableEq

instance {ε α : Type} [DecidableEq ε] [DecidableEq α] :
    DecidableEq (Except ε α) := fun x y =>
  match x, y with
  | .ok a, .ok b =>
    if h : a = b then .isTrue (h ▸ rfl)
    else .isFalse (fun hc => h (Except.ok.inj hc))
  | .error a, .error b =>
    if h : a = b then .isTrue (h ▸ rfl)
    else .isFalse (fun hc => h (Except.error.inj hc))
  | .ok _, .error _ => .isFalse (fun hc => Except.noConfusion hc)
  | .error _, .ok _ => .isFalse (fun hc => Except.noConfusion hc)

/-- `RedroidManager.__init__`: `port_pool = range(5900,6000) / range(5555,5655)`. -/
def port_pool : PortType → Finset Nat
  | .vnc => Finset.Ico 5900 6000
  | .adb => Finset.Ico 5555 5655

/-- The `used_ports` set for a pool. -/
def usedPorts (s : PortState) : PortType → Finset Nat
  | .vnc => s.used_vnc
  | .adb => s.used_adb

/-- Replace the `used_ports` set for a pool. -/
def setUsed (s : PortState) (t : PortType) (u : Finset Nat) : PortState :=
  match t with
  | .vnc => { s with used_vnc := u }
  | .adb => { s with used_adb := u }

/-- `port_pool[port_type] - used_ports[port_type]`. -/
def availablePorts (s : PortState) (t : PortType) : Finset Nat :=
  port_pool t \ usedPorts s t

/-- `random.choice(list(available_ports))` is modelled by a choice
function handed to the allocator; `PickValid` says the choice always
lands in the candidate set, which is all the source relies on. -/
def PickValid (pick : Finset Nat → Nat) : Prop :=
  ∀ u : Finset Nat, u.Nonempty → pick u ∈ u

/-- A concrete valid choice function (used to instantiate witnesses):
take the smallest candidate. -/
def minPick (u : Finset Nat) : Nat :=
  if h : u.Nonempty then u.min' h else 0

/-- Printable pool name, used in the allocator's error text. -/
def portTypeName : PortType → String
  | .vnc => "vnc"
  | .adb => "adb"

/-- `RedroidManager._allocate_port`: raise if no port is available,
otherwise pick an available port and add it to `used_ports`. -/
def allocate_port (pick : Finset Nat → Nat) (s : PortState) (t : PortType) :
    Except String (Nat × PortState) :=
  let available := availablePorts s t
  if available = ∅ then
    .error ("No available " ++ portTypeName t ++ " ports")
  else
    let p := pick available
    .ok (p, setUsed s t (insert p (usedPorts s t)))

/-- `RedroidManager._release_port`: `used_ports[port_type].discard(port)`. -/
def release_port (p : Nat) (t : PortType) (s : PortState) : PortState :=
  setUsed s t ((usedPorts s t).erase p)

/-- Fresh manager state: both `used_ports` sets empty. -/
def initPortState : PortState := ⟨∅, ∅⟩

/-- One allocator operation: an allocation attempt (with its random pick
index) or a release. -/
inductive PortOp where
  | alloc (pick : Finset Nat → Nat) (t : PortType)
  | release (p : Nat) (t : PortType)

/-- Run one operation against the port state; a failed allocation leaves
the state unchanged. -/
def runPortOp (s : PortState) : PortOp → PortState
  | .alloc pick t =>
    match allocate_port pick s t with
    | .ok (_, s') => s'
    | .error _ => s
  | .release p t => release_port p t s

/-- Run a sequence of allocate/release operations. -/
def runPortOps (s : PortState) (ops : List PortOp) : PortState :=
  ops.foldl runPortOp s

/-- Failure injection for `RedroidManager.create_container`.
`versionSupported` is the `android_version in self.redroid_images` test;
`failAfterAlloc = some msg` means the first step after both port
allocations that raises, with the message of the raised exception
(building properties, creating the data directory, the docker create
call, or the network configuration). -/
structure CreateEnv where
  vncPick : Finset Nat → Nat
  adbPick : Finset Nat → Nat
  versionSupported : Bool
  failAfterAlloc : Option String

/-- `RedroidManager.create_container`, restricted to its effect on the
port pools.  The `except` handler releases `vnc_port` and then
`adb_port`; when a local is still unbound at that point (failure before
the corresponding allocation) the handler itself raises
`UnboundLocalError` after performing the releases that did execute. -/
def create_container (env : CreateEnv) (s : PortState) :
    Except String (Nat × Nat) × PortState :=
  if env.versionSupported = false then
    (.error "UnboundLocalError: vnc_port", s)
  else
    match allocate_port env.vncPick s .vnc with
    | .error _ => (.error "UnboundLocalError: vnc_port", s)
    | .ok (vnc_port, s1) =>
      match allocate_port env.adbPick s1 .adb with
      | .error _ =>
        (.error "UnboundLocalError: adb_port", release_port vnc_port .vnc s1)
      | .ok (adb_port, s2) =>
        match env.failAfterAlloc with
        | some msg =>
          (.error ("Container creation failed: " ++ msg),
           release_port adb_port .adb (release_port vnc_port .vnc s2))
        | none => (.ok (vnc_port, adb_port), s2)

/-! ## Network isolator (`network_isolator.py`)

The observable state is the namespace registry (`active_namespaces`),
the OS-level namespace and veth-link names, and the two iptables chains
the module touches: the filter `FORWARD` chain and the nat `POSTROUTING`
chain.  Rules are kept in chain order. -/

/-- An iptables rule of the shapes this module installs. -/
inductive IptRule where
  | acceptIfacePair (inIf outIf : String)
  | acceptSrc (ip : String)
  | acceptDst (ip : String)
  | masqSrc (ip : String)
deriving DecidableEq

/-- Network state observable to `NetworkIsolator`. -/
structure NetState where
  active_namespaces : Finset String
  netns : Finset String
  links : Finset String
  forward : List IptRule
  postrouting : List IptRule
deriving DecidableEq

/-- The FORWARD rules `_setup_default_iptables` appends. -/
def defaultForwardRules : List IptRule :=
  [.acceptIfacePair "docker0" "docker0",
   .acceptSrc "172.20.0.0/16",
   .acceptDst "172.20.0.0/16"]

/-- The POSTROUTING rule `_setup_default_iptables` installs after
flushing the nat table. -/
def defaultPostroutingRules : List IptRule :=
  [.masqSrc "172.20.0.0/16"]

/-- `NetworkIsolator._setup_default_iptables`: flush the nat table
(dropping POSTROUTING) and re-add the masquerade rule; append the three
default FORWARD rules. -/
def setup_default_iptables (st : NetState) : NetState :=
  { st with
    postrouting := defaultPostroutingRules,
    forward := st.forward ++ defaultForwardRules }

/-- `NetworkIsolator._setup_namespace_iptables`: append the per-address
forwarding and NAT rules. -/
def setup_namespace_iptables (ip : String) (st : NetState) : NetState :=
  { st with
    forward := st.forward ++ [.acceptSrc ip, .acceptDst ip],
    postrouting := st.postrouting ++ [.masqSrc ip] }

/-- `NetworkIsolator._cleanup_namespace_iptables`: flush the whole
FORWARD chain and the whole nat POSTROUTING chain, then re-install only
the default rules. -/
def cleanup_namespace_iptables (st : NetState) : NetState :=
  setup_default_iptables { st with forward := [], postrouting := [] }

/-- The host-side veth name `veth-{namespace[:8]}`. -/
def vethHost (ns : String) : String :=
  "veth-" ++ ns.take 8

/-- `NetworkIsolator.destroy_namespace`: cleanup iptables, delete the
veth pair and the namespace (both with `check=False`, so absent objects
are ignored), deregister the name, return success. -/
def destroy_namespace (ns : String) (st : NetState) : Bool × NetState :=
  let st1 := cleanup_namespace_iptables st
  (true,
   { st1 with
     links := st1.links.erase (vethHost ns),
     netns := st1.netns.erase ns,
     active_namespaces := st1.active_namespaces.erase ns })

/-- `NetworkIsolator.create_namespace`.  The eight `check=True` commands
are numbered 0‥7 in source order (netns add; veth add; veth into netns;
host side up; loopback up; namespace side up; namespace address; default
route); `failStep = some i` makes command `i` raise
`CalledProcessError`, upon which the source calls `destroy_namespace`
and returns `False`.  The `check=False` commands (host address,
per-namespace iptables) never raise. -/
def create_namespace (failStep : Option (Fin 8)) (ns ip : String)
    (st : NetState) : Bool × NetState :=
  if failStep = some 0 then (false, (destroy_namespace ns st).2)
  else
    let st1 := { st with netns := insert ns st.netns }
    if failStep = some 1 then (false, (destroy_namespace ns st1).2)
    else
      let st2 := { st1 with links := insert (vethHost ns) st1.links }
      if failStep = some 2 then (false, (destroy_namespace ns st2).2)
      else if failStep = some 3 then (false, (destroy_namespace ns st2).2)
      else if failStep = some 4 then (false, (destroy_namespace ns st2).2)
      else if failStep = some 5 then (false, (destroy_namespace ns st2).2)
      else if failStep = some 6 then (false, (destroy_namespace ns st2).2)
      else if failStep = some 7 then (false, (destroy_namespace ns st2).2)
      else
        let st3 := setup_namespace_iptables ip st2
        (true, { st3 with active_namespaces := insert ns st3.active_namespaces })

/-! ## Instance state machine (`lifecycle-manager/main.py`)

Database sessions are modelled by a list of records; external calls the
handlers make into the orchestrator, the runtime adapter and the
network service are recorded in a trace.  Timestamps are abstract
ticks. -/

/-- One record of the `android_instances` table.  `cpu_quota` carries
the resource limit in the exact integral form the source derives from it
(`int(cpu_limit * 100000)`). -/
structure Instance where
  instance_id : String
  container_id : Option String
  container_name : String
  android_version : String
  device_profile : Option String
  network_config : Option String
  location_config : Option String
  status : String
  cpu_quota : Nat
  memory_limit : String
  storage_size : String
  vnc_port : Option Nat
  adb_port : Option Nat
  created_at : Nat
  started_at : Option Nat
  stopped_at : Option Nat
  last_heartbeat : Option Nat
  error_message : Option String
deriving DecidableEq

/-- The instance table. -/
abbrev DB := List Instance

/-- `session.get(AndroidInstance, instance_id)`. -/
def dbGet (db : DB) (id : String) : Option Instance :=
  db.find? (fun i => i.instance_id == id)

/-- Mutating the session-attached record and committing. -/
def dbSet (db : DB) (id : String) (f : Instance → Instance) : DB :=
  db.map (fun i => if i.instance_id == id then f i else i)

/-- `session.delete(instance)` followed by commit. -/
def dbDelete (db : DB) (id : String) : DB :=
  db.filter (fun i => i.instance_id != id)

/-- A call the lifecycle handlers make into their collaborators. -/
inductive OrchCall where
  | checkHealth (cid : Option String)
  | startC (cid : Option String)
  | stopC (cid : Option String)
  | removeC (cid : Option String)
  | createC (name : String)
  | configureC (name : String)
  | netDelete (id : String)
deriving DecidableEq

/-- Outcome of a lifecycle endpoint. -/
inductive ApiResult where
  | notFound
  | alreadyRunning
  | started
  | stopped
  | restarted
  | deleted
deriving DecidableEq

/-- Record update of `start_instance`. -/
def markStarted (now : Nat) : Instance → Instance :=
  fun i => { i with status := "running", started_at := some now,
                    last_heartbeat := some now }

/-- Record update of `stop_instance`. -/
def markStopped (now : Nat) : Instance → Instance :=
  fun i => { i with status := "stopped", stopped_at := some now }

/-- `start_instance`: 404 when unknown; `already_running` short-circuit
when the status is `running`; otherwise invoke the orchestrator start
(its Bool result is ignored by the source) and set status and
timestamps. -/
def start_instance (now : Nat) (db : DB) (id : String) :
    ApiResult × DB × List OrchCall :=
  match dbGet db id with
  | none => (.notFound, db, [])
  | some inst =>
    if inst.status == "running" then (.alreadyRunning, db, [])
    else
      (.started, dbSet db id (markStarted now), [.startC inst.container_id])

/-- `stop_instance`: 404 when unknown; otherwise always invoke the
orchestrator stop and set status and `stopped_at` — the source has no
already-stopped short-circuit. -/
def stop_instance (now : Nat) (db : DB) (id : String) :
    ApiResult × DB × List OrchCall :=
  match dbGet db id with
  | none => (.notFound, db, [])
  | some inst =>
    (.stopped, dbSet db id (markStopped now), [.stopC inst.container_id])

/-- `restart_instance`: `stop_instance`, `asyncio.sleep(2)`,
`start_instance`. -/
def restart_instance (now : Nat) (db : DB) (id : String) :
    ApiResult × DB × List OrchCall :=
  match stop_instance now db id with
  | (.notFound, db1, tr1) => (.notFound, db1, tr1)
  | (_, db1, tr1) =>
    match start_instance (now + 2) db1 id with
    | (_, db2, tr2) => (.restarted, db2, tr1 ++ tr2)

/-- Per-instance body of `check_instance_health`: the health probe
either returns a Bool or raises; the surrounding `try` turns a raise
into a failure record. -/
def checkOne (health : Option String → Except String Bool) (now : Nat)
    (inst : Instance) : Instance :=
  match health inst.container_id with
  | .ok true => { inst with last_heartbeat := some now }
  | .ok false =>
    { inst with status := "failed",
                error_message := some "Container health check failed" }
  | .error e => { inst with status := "failed", error_message := some e }

/-- The monitor's loop over the running instances; non-running records
are untouched and a probe call is recorded for each running one. -/
def sweepInstances (health : Option String → Except String Bool) (now : Nat) :
    List Instance → List Instance × List OrchCall
  | [] => ([], [])
  | inst :: rest =>
    let hd := if inst.status == "running"
      then (checkOne health now inst, [OrchCall.checkHealth inst.container_id])
      else (inst, ([] : List OrchCall))
    let tl := sweepInstances health now rest
    (hd.1 :: tl.1, hd.2 ++ tl.2)

/-- `check_instance_health`: one sweep of the health monitor. -/
def check_instance_health (health : Option String → Except String Bool)
    (now : Nat) (db : DB) : DB × List OrchCall :=
  sweepInstances health now db

/-- Result of a successful `RedroidManager.create_container` as consumed
by `create_container_async`. -/
structure CreateInfo where
  container_id : String
  vnc_port : Nat
  adb_port : Nat
deriving DecidableEq

/-- Record update performed by `create_container_async` before
provisioning starts. -/
def markConfiguring : Instance → Instance :=
  fun i => { i with status := "configuring" }

/-- Record update of the provisioning failure handler. -/
def markFailed (e : String) : Instance → Instance :=
  fun i => { i with status := "failed", error_message := some e }

/-- Record update after successful provisioning. -/
def markRunning (info : CreateInfo) (now : Nat) : Instance → Instance :=
  fun i => { i with container_id := some info.container_id,
                    vnc_port := some info.vnc_port,
                    adb_port := some info.adb_port,
                    status := "running",
                    started_at := some now,
                    last_heartbeat := some now }


/-- Failure injection for `create_container_async`: the outcome of each
provisioning step that can raise.  `startOk` is the Bool returned by
`ContainerOrchestrator.start_container`, which swallows its own
exceptions; the source ignores it. -/
structure ProvisionEnv where
  createResult : Except String CreateInfo
  configureResult : Except String Unit
  startOk : Bool
  locationResult : Except String Unit
  now : Nat

/-- The message of the first provisioning step that raises, if any. -/
def firstProvisionFailure (env : ProvisionEnv) (locationRequested : Bool) :
    Option String :=
  match env.createResult with
  | .error e => some e
  | .ok _ =>
    match env.configureResult with
    | .error e => some e
    | .ok _ =>
      if locationRequested then
        match env.locationResult with
        | .error e => some e
        | .ok _ => none
      else none

/-- `create_container_async`: set `configuring`; run the provisioning
steps; on success record ports, container id, `running` and timestamps;
any raise is caught by the enclosing handler, which records the message
and sets `failed`.  The task itself re-raises only when the record is
missing (then even the handler's attribute access raises). -/
def create_container_async (env : ProvisionEnv) (locationRequested : Bool)
    (db : DB) (id : String) : Except String DB :=
  match dbGet db id with
  | none => .error "AttributeError: NoneType has no attribute status"
  | some _ =>
    let db1 := dbSet db id markConfiguring
    match env.createResult with
    | .error e => .ok (dbSet db1 id (markFailed e))
    | .ok info =>
      match env.configureResult with
      | .error e => .ok (dbSet db1 id (markFailed e))
      | .ok _ =>
        match (if locationRequested then env.locationResult else .ok ()) with
        | .error e => .ok (dbSet db1 id (markFailed e))
        | .ok _ => .ok (dbSet db1 id (markRunning info env.now))

/-- `ContainerOrchestrator.remove_container`: stop if running, remove,
drop the stats-cache entry; every docker error is caught and reported as
`False` with no state change.  `dockerOk` injects such an error.  The
port pools are not in scope of this function and are untouched. -/
def orch_remove_container (dockerOk : Bool) (docker : Finset String)
    (cid : String) : Bool × Finset String :=
  if cid ∈ docker then
    (if dockerOk then (true, docker.erase cid) else (false, docker))
  else (false, docker)

/-- The whole lifecycle-manager state `delete_instance` can reach: the
instance table, the `RedroidManager` port pools and the docker container
set. -/
structure LMState where
  db : DB
  ports : PortState
  docker : Finset String
deriving DecidableEq

/-- `delete_instance`: 404 when unknown; otherwise remove the container
via `ContainerOrchestrator.remove_container` when a container id is
recorded, attempt the network-service cleanup regardless of the removal
outcome (its errors are swallowed), then drop the record.  No call into
`RedroidManager` is made, so the port pools pass through unchanged. -/
def delete_instance (dockerOk : Bool) (st : LMState) (id : String) :
    ApiResult × LMState × List OrchCall :=
  match dbGet st.db id with
  | none => (.notFound, st, [])
  | some inst =>
    let removed :=
      match inst.container_id with
      | some cid =>
        ((orch_remove_container dockerOk st.docker cid).2,
         [OrchCall.removeC (some cid)])
      | none => (st.docker, ([] : List OrchCall))
    (.deleted,
     { db := dbDelete st.db id, ports := st.ports, docker := removed.1 },
     removed.2 ++ [OrchCall.netDelete id])

/-! ## Concrete sample states

Concrete inputs used by the witnesses and counterexamples below. -/

/-- A provisioned, running instance holding ports 5900 and 5555. -/
def sampleRunningInstance : Instance :=
  { instance_id := "i1", container_id := some "c1",
    container_name := "android-i1", android_version := "13",
    device_profile := some "profile-json", network_config := some "net-json",
    location_config := none, status := "running", cpu_quota := 200000,
    memory_limit := "4G", storage_size := "8G", vnc_port := some 5900,
    adb_port := some 5555, created_at := 0, started_at := some 1,
    stopped_at := none, last_heartbeat := some 1, error_message := none }

/-- The same instance already stopped (at tick 5). -/
def sampleStoppedInstance : Instance :=
  { sampleRunningInstance with status := "stopped", stopped_at := some 5 }

/-- A freshly created instance, before provisioning. -/
def sampleCreatingInstance : Instance :=
  { sampleRunningInstance with
    status := "creating", container_id := none,
    vnc_port := none, adb_port := none, started_at := none,
    last_heartbeat := none }

/-- Lifecycle-manager state with one provisioned running instance whose
two ports are marked in use. -/
def sampleLMState : LMState :=
  { db := [sampleRunningInstance], ports := ⟨{5900}, {5555}⟩,
    docker := {"c1"} }

/-- A health probe that reports every container unhealthy. -/
def sampleHealthUnhealthy : Option String → Except String Bool :=
  fun _ => .ok false

/-- A health probe that reports every container healthy. -/
def sampleHealthHealthy : Option String → Except String Bool :=
  fun _ => .ok true

/-- Network state right after `initialize`: default rules installed,
nothing registered. -/
def sampleNetState : NetState :=
  { active_namespaces := ∅, netns := ∅, links := ∅,
    forward := defaultForwardRules, postrouting := defaultPostroutingRules }

/-- Network state with namespaces nsA and nsB fully created. -/
def sampleTwoNsState : NetState :=
  (create_namespace none "nsB" "172.20.1.6"
    (create_namespace none "nsA" "172.20.1.5" sampleNetState).2).2

/-! ## Helper lemmas -/

theorem minPick_valid : PickValid minPick := by
  intro u hu
  simp only [minPick, dif_pos hu]
  exact u.min'_mem hu

theorem usedPorts_setUsed_self (s : PortState) (t : PortType) (u : Finset Nat) :
    usedPorts (setUsed s t u) t = u := by
  cases t <;> rfl

theorem usedPorts_setUsed_other (s : PortState) (t t2 : PortType)
    (u : Finset Nat) (h : t2 ≠ t) :
    usedPorts (setUsed s t u) t2 = usedPorts s t2 := by
  cases t <;> cases t2 <;> first | rfl | exact absurd rfl h

theorem allocate_port_error (pick : Finset Nat → Nat) (s : PortState)
    (t : PortType) (h : availablePorts s t = ∅) :
    allocate_port pick s t =
      .error ("No available " ++ portTypeName t ++ " ports") := by
  simp [allocate_port, h]

theorem allocate_port_ok (pick : Finset Nat → Nat) (s : PortState)
    (t : PortType) (h : availablePorts s t ≠ ∅) :
    allocate_port pick s t =
      .ok (pick (availablePorts s t),
           setUsed s t (insert (pick (availablePorts s t)) (usedPorts s t))) := by
  simp [allocate_port, h]

theorem pick_mem_available (pick : Finset Nat → Nat) (s : PortState)
    (t : PortType) (hpick : PickValid pick) (h : availablePorts s t ≠ ∅) :
    pick (availablePorts s t) ∈ availablePorts s t :=
  hpick _ (Finset.nonempty_iff_ne_empty.mpr h)

theorem allocate_port_ok_inv (pick : Finset Nat → Nat) (s : PortState)
    (t : PortType) (p : Nat) (s' : PortState) (hpick : PickValid pick)
    (h : allocate_port pick s t = .ok (p, s')) :
    p ∈ availablePorts s t ∧
    usedPorts s' t = insert p (usedPorts s t) := by
  by_cases hav : availablePorts s t = ∅
  · rw [allocate_port_error pick s t hav] at h
    exact absurd h (by simp)
  · rw [allocate_port_ok pick s t hav] at h
    injection h with h1
    injection h1 with hp hs'
    subst hp
    subst hs'
    exact ⟨pick_mem_available pick s t hpick hav,
           usedPorts_setUsed_self s t _⟩

theorem dbGet_dbSet_same (db : DB) (id : String) (f : Instance → Instance)
    (inst : Instance) (hfind : dbGet db id = some inst)
    (hf : ∀ i, (f i).instance_id = i.instance_id) :
    dbGet (dbSet db id f) id = some (f inst) := by
  induction db with
  | nil => simp [dbGet] at hfind
  | cons hd tl ih =>
    cases hbe : (hd.instance_id == id) with
    | true =>
      have hfhd : ((f hd).instance_id == id) = true := by
        rw [hf hd]
        exact hbe
      simp only [dbGet, List.find?, hbe] at hfind
      injection hfind with he
      subst he
      simp [dbGet, dbSet, List.find?, hbe, hfhd]
    | false =>
      simp only [dbGet, List.find?, hbe] at hfind
      have ihr := ih hfind
      simp only [dbGet, dbSet, List.map_cons, List.find?, hbe, if_neg] at ihr ⊢
      simpa [hbe] using ihr

/-! ## Claim theorems -/

/-- C1: Port allocation exclusivity.  After any sequence of
allocate/release operations on the pools, a successful allocation
returns a port from the pool's fixed range that is not in the in-use
set, adds it to the in-use set, the available and in-use sets stay
disjoint, a subsequent successful allocation from the same pool returns
a different port, an in-use port stays in use under every operation
other than its own release (so the ports held by live instances are
pairwise distinct), and allocation fails exactly when the available set
is empty. -/
theorem C1_port_allocation_exclusivity
    (ops : List PortOp) (pick : Finset Nat → Nat) (t : PortType)
    (hpick : PickValid pick) :
    (∀ p s', allocate_port pick (runPortOps initPortState ops) t = .ok (p, s') →
      p ∈ port_pool t ∧
      p ∉ usedPorts (runPortOps initPortState ops) t ∧
      usedPorts s' t = insert p (usedPorts (runPortOps initPortState ops) t) ∧
      Disjoint (availablePorts s' t) (usedPorts s' t) ∧
      (∀ pick2 p2 s2, PickValid pick2 →
        allocate_port pick2 s' t = .ok (p2, s2) → p2 ≠ p)) ∧
    (∀ p op, p ∈ usedPorts (runPortOps initPortState ops) t →
      op ≠ PortOp.release p t →
      p ∈ usedPorts (runPortOp (runPortOps initPortState ops) op) t) ∧
    ((∃ e, allocate_port pick (runPortOps initPortState ops) t = .error e) ↔
      availablePorts (runPortOps initPortState ops) t = ∅) := by
  set s := runPortOps initPortState ops with hs
  refine ⟨?_, ?_, ?_⟩
  · intro p s' hok
    have hinv := allocate_port_ok_inv pick s t p s' hpick hok
    have hmem := Finset.mem_sdiff.mp hinv.1
    refine ⟨hmem.1, hmem.2, hinv.2, Finset.sdiff_disjoint, ?_⟩
    intro pick2 p2 s2 hpick2 hok2
    have hinv2 := allocate_port_ok_inv pick2 s' t p2 s2 hpick2 hok2
    have hnot := (Finset.mem_sdiff.mp hinv2.1).2
    intro hcontra
    apply hnot
    rw [hinv.2, hcontra]
    exact Finset.mem_insert_self _ _
  · intro p op hp hne
    cases op with
    | alloc pick2 t2 =>
      simp only [runPortOp]
      by_cases hav : availablePorts s t2 = ∅
      · rw [allocate_port_error pick2 s t2 hav]
        exact hp
      · rw [allocate_port_ok pick2 s t2 hav]
        by_cases ht : t2 = t
        · subst ht
          rw [usedPorts_setUsed_self]
          exact Finset.mem_insert_of_mem hp
        · rw [usedPorts_setUsed_other _ _ _ _ (fun h => ht h.symm)]
          exact hp
    | release q t2 =>
      simp only [runPortOp, release_port]
      by_cases ht : t2 = t
      · subst ht
        rw [usedPorts_setUsed_self]
        have hq : p ≠ q := by
          intro hpq
          exact hne (by rw [hpq])
        exact Finset.mem_erase_of_ne_of_mem hq hp
      · rw [usedPorts_setUsed_other _ _ _ _ (fun h => ht h.symm)]
        exact hp
  · by_cases hav : availablePorts s t = ∅
    · simp [allocate_port_error pick s t hav, hav]
    · simp [allocate_port_ok pick s t hav, hav]

set_option maxRecDepth 100000 in
/-- Witness for C1: from the fresh pools, an allocation (smallest-pick
choice) succeeds with port 5900, which is in range, not in use, becomes
in use, and the available set stays disjoint from the in-use set. -/
theorem C1_port_allocation_exclusivity_witness :
    5900 ∈ port_pool PortType.vnc ∧
    5900 ∉ usedPorts (runPortOps initPortState []) PortType.vnc ∧
    usedPorts (⟨{5900}, ∅⟩ : PortState) PortType.vnc =
      insert 5900 (usedPorts (runPortOps initPortState []) PortType.vnc) ∧
    Disjoint (availablePorts ⟨{5900}, ∅⟩ PortType.vnc)
      (usedPorts ⟨{5900}, ∅⟩ PortType.vnc) := by
  have h := (C1_port_allocation_exclusivity [] minPick PortType.vnc
    minPick_valid).1 5900 ⟨{5900}, ∅⟩ (by decide)
  exact ⟨h.1, h.2.1, h.2.2.1, h.2.2.2.1⟩

/-- C3: In `RedroidManager.create_container` the two ports are drawn
from their pools before the sandbox-creation steps run, and when any
step after both reservations fails, both reserved ports are released
before the wrapped error is raised: the port state after the failed call
equals the port state before it. -/
theorem C3_create_container_rollback (env : CreateEnv) (s : PortState)
    (hvp : PickValid env.vncPick) (hap : PickValid env.adbPick)
    (hver : env.versionSupported = true)
    (hvnc : availablePorts s PortType.vnc ≠ ∅)
    (hadb : availablePorts s PortType.adb ≠ ∅) :
    (∀ msg, env.failAfterAlloc = some msg →
      (create_container env s).1 =
        .error ("Container creation failed: " ++ msg) ∧
      (create_container env s).2 = s) ∧
    (env.failAfterAlloc = none →
      ∃ pv pa, (create_container env s).1 = .ok (pv, pa) ∧
        pv ∈ port_pool PortType.vnc ∧ pv ∉ usedPorts s PortType.vnc ∧
        pa ∈ port_pool PortType.adb ∧ pa ∉ usedPorts s PortType.adb ∧
        usedPorts (create_container env s).2 PortType.vnc =
          insert pv (usedPorts s PortType.vnc) ∧
        usedPorts (create_container env s).2 PortType.adb =
          insert pa (usedPorts s PortType.adb)) := by
  obtain ⟨uv, ua⟩ := s
  have hpv := pick_mem_available env.vncPick ⟨uv, ua⟩ PortType.vnc hvp hvnc
  have hpvn := Finset.mem_sdiff.mp hpv
  have h1 : allocate_port env.vncPick ⟨uv, ua⟩ PortType.vnc =
      .ok (env.vncPick (availablePorts ⟨uv, ua⟩ PortType.vnc),
           ⟨insert (env.vncPick (availablePorts ⟨uv, ua⟩ PortType.vnc)) uv, ua⟩) := by
    rw [allocate_port_ok _ _ _ hvnc]
    rfl
  have hadb2 : availablePorts
      (⟨insert (env.vncPick (availablePorts ⟨uv, ua⟩ PortType.vnc)) uv, ua⟩ : PortState)
      PortType.adb ≠ ∅ := hadb
  have hpa := pick_mem_available env.adbPick
    ⟨insert (env.vncPick (availablePorts ⟨uv, ua⟩ PortType.vnc)) uv, ua⟩
    PortType.adb hap hadb2
  have hpan := Finset.mem_sdiff.mp hpa
  have h2 : allocate_port env.adbPick
      ⟨insert (env.vncPick (availablePorts ⟨uv, ua⟩ PortType.vnc)) uv, ua⟩
      PortType.adb =
      .ok (env.adbPick (availablePorts ⟨uv, ua⟩ PortType.adb),
           ⟨insert (env.vncPick (availablePorts ⟨uv, ua⟩ PortType.vnc)) uv,
            insert (env.adbPick (availablePorts ⟨uv, ua⟩ PortType.adb)) ua⟩) := by
    rw [allocate_port_ok _ _ _ hadb2]
    rfl
  refine ⟨?_, ?_⟩
  · intro msg hmsg
    simp only [create_container, hver, Bool.true_eq_false, if_false, h1, h2,
      hmsg, release_port, usedPorts, setUsed]
    refine ⟨trivial, ?_⟩
    have hev : (insert (env.vncPick (availablePorts ⟨uv, ua⟩ PortType.vnc)) uv).erase
        (env.vncPick (availablePorts ⟨uv, ua⟩ PortType.vnc)) = uv :=
      Finset.erase_insert hpvn.2
    have hea : (insert (env.adbPick (availablePorts ⟨uv, ua⟩ PortType.adb)) ua).erase
        (env.adbPick (availablePorts ⟨uv, ua⟩ PortType.adb)) = ua :=
      Finset.erase_insert hpan.2
    simp [hev, hea]
  · intro hnone
    refine ⟨env.vncPick (availablePorts ⟨uv, ua⟩ PortType.vnc),
            env.adbPick (availablePorts ⟨uv, ua⟩ PortType.adb), ?_⟩
    simp only [create_container, hver, Bool.true_eq_false, if_false, h1, h2, hnone]
    exact ⟨trivial, hpvn.1, hpvn.2, hpan.1, hpan.2, rfl, rfl⟩

set_option maxRecDepth 100000 in
/-- Witness for C3: with both pools fresh and the post-allocation step
failing with message docker error, creation reports the wrapped error
and the port state is exactly the initial one again. -/
theorem C3_create_container_rollback_witness :
    (create_container ⟨minPick, minPick, true, some "docker error"⟩
        initPortState).1 =
      .error ("Container creation failed: " ++ "docker error") ∧
    (create_container ⟨minPick, minPick, true, some "docker error"⟩
        initPortState).2 = initPortState :=
  (C3_create_container_rollback ⟨minPick, minPick, true, some "docker error"⟩
    initPortState minPick_valid minPick_valid rfl (by decide) (by decide)).1
    "docker error" rfl

/-- C6: Namespace creation is atomic with respect to the registry: when
any setup step fails, the cleanup of `destroy_namespace` has run before
the error return (namespace and veth gone, chains reset), and the name
is registered if and only if every setup step succeeded. -/
theorem C6_namespace_create_atomic (failStep : Option (Fin 8)) (ns ip : String)
    (st : NetState) :
    ((create_namespace failStep ns ip st).1 = true ↔ failStep = none) ∧
    (ns ∈ (create_namespace failStep ns ip st).2.active_namespaces ↔
      failStep = none) ∧
    (failStep ≠ none →
      ns ∉ (create_namespace failStep ns ip st).2.netns ∧
      vethHost ns ∉ (create_namespace failStep ns ip st).2.links ∧
      (create_namespace failStep ns ip st).2.forward = defaultForwardRules ∧
      (create_namespace failStep ns ip st).2.postrouting =
        defaultPostroutingRules) := by
  rcases failStep with _ | i
  · refine ⟨by simp [create_namespace], ?_, by simp⟩
    simp [create_namespace, setup_namespace_iptables]
  · fin_cases i <;>
      simp [create_namespace, destroy_namespace, cleanup_namespace_iptables,
        setup_default_iptables, setup_namespace_iptables,
        Finset.not_mem_erase]

/-- Witness for C6: failing the veth-creation step on the fresh state
leaves no namespace, no veth link and only the default FORWARD rules. -/
theorem C6_namespace_create_atomic_witness :
    "ns1" ∉ (create_namespace (some 1) "ns1" "172.20.1.5"
      sampleNetState).2.netns ∧
    vethHost "ns1" ∉ (create_namespace (some 1) "ns1" "172.20.1.5"
      sampleNetState).2.links ∧
    (create_namespace (some 1) "ns1" "172.20.1.5" sampleNetState).2.forward =
      defaultForwardRules := by
  have h := (C6_namespace_create_atomic (some 1) "ns1" "172.20.1.5"
    sampleNetState).2.2 (by simp)
  exact ⟨h.1, h.2.1, h.2.2.1⟩

/-- C7: `destroy_namespace` is idempotent: it reports success for any
name (including unknown or already-destroyed ones), leaves the name
outside the registry, and running it twice produces the same state and
result as running it once. -/
theorem C7_destroy_namespace_idempotent (ns : String) (st : NetState) :
    (destroy_namespace ns st).1 = true ∧
    ns ∉ (destroy_namespace ns st).2.active_namespaces ∧
    destroy_namespace ns (destroy_namespace ns st).2 =
      destroy_namespace ns st := by
  refine ⟨rfl, Finset.not_mem_erase ns _, ?_⟩
  simp [destroy_namespace, cleanup_namespace_iptables,
    setup_default_iptables, Finset.erase_idem]

/-- Witness for C7: destroying a never-created namespace succeeds,
leaves it unregistered, and a second destroy changes nothing. -/
theorem C7_destroy_namespace_idempotent_witness :
    (destroy_namespace "ghost" sampleNetState).1 = true ∧
    "ghost" ∉ (destroy_namespace "ghost" sampleNetState).2.active_namespaces ∧
    destroy_namespace "ghost" (destroy_namespace "ghost" sampleNetState).2 =
      destroy_namespace "ghost" sampleNetState :=
  C7_destroy_namespace_idempotent "ghost" sampleNetState

/-- C10: Frame violation of namespace teardown: destroying any one
namespace resets the whole FORWARD chain and the whole nat POSTROUTING
chain to the default rules, so the per-address accept and masquerade
rules of every other address are removed, while other namespaces stay
registered. -/
theorem C10_destroy_flushes_unrelated_rules (st : NetState) (nsA ipB : String)
    (hip : ipB ≠ "172.20.0.0/16") :
    (destroy_namespace nsA st).2.forward = defaultForwardRules ∧
    (destroy_namespace nsA st).2.postrouting = defaultPostroutingRules ∧
    IptRule.acceptSrc ipB ∉ (destroy_namespace nsA st).2.forward ∧
    IptRule.acceptDst ipB ∉ (destroy_namespace nsA st).2.forward ∧
    IptRule.masqSrc ipB ∉ (destroy_namespace nsA st).2.postrouting ∧
    ∀ nsB ∈ st.active_namespaces, nsB ≠ nsA →
      nsB ∈ (destroy_namespace nsA st).2.active_namespaces := by
  refine ⟨rfl, rfl, ?_, ?_, ?_, ?_⟩
  · simp [destroy_namespace, cleanup_namespace_iptables,
      setup_default_iptables, defaultForwardRules, hip]
  · simp [destroy_namespace, cleanup_namespace_iptables,
      setup_default_iptables, defaultForwardRules, hip]
  · simp [destroy_namespace, cleanup_namespace_iptables,
      setup_default_iptables, defaultPostroutingRules, hip]
  · intro nsB hmem hne
    exact Finset.mem_erase.mpr ⟨hne, hmem⟩

/-- Witness for C10: with nsA and nsB both fully created, nsB's NAT
rule is present before and gone after destroying the unrelated nsA,
while nsB itself is still registered. -/
theorem C10_destroy_flushes_unrelated_rules_witness :
    IptRule.masqSrc "172.20.1.6" ∈ sampleTwoNsState.postrouting ∧
    IptRule.masqSrc "172.20.1.6" ∉
      (destroy_namespace "nsA" sampleTwoNsState).2.postrouting ∧
    "nsB" ∈ (destroy_namespace "nsA" sampleTwoNsState).2.active_namespaces := by
  have h := C10_destroy_flushes_unrelated_rules sampleTwoNsState "nsA"
    "172.20.1.6" (by decide)
  exact ⟨by decide, h.2.2.2.2.1, h.2.2.2.2.2 "nsB" (by decide) (by decide)⟩

set_option maxRecDepth 100000 in
/-- C2 (failing input): deleting a provisioned instance whose two ports
are marked in use removes the container and the record and attempts the
network cleanup, but leaves both ports in the in-use sets — the
orchestrator removal the endpoint calls never touches the pools, and the
port-releasing `RedroidManager.remove_container` is never invoked. -/
theorem C2_delete_leaves_ports_in_use :
    (delete_instance true sampleLMState "i1").1 = .deleted ∧
    (delete_instance true sampleLMState "i1").2.1.ports =
      sampleLMState.ports ∧
    (delete_instance true sampleLMState "i1").2.1.ports.used_vnc = {5900} ∧
    (delete_instance true sampleLMState "i1").2.1.ports.used_adb = {5555} ∧
    dbGet (delete_instance true sampleLMState "i1").2.1.db "i1" = none ∧
    (delete_instance true sampleLMState "i1").2.2 =
      [OrchCall.removeC (some "c1"), OrchCall.netDelete "i1"] := by
  decide

/-- C4: Every provisioning failure is absorbed at the task boundary:
given the record exists, `create_container_async` returns normally, the
first failing step's message becomes the error message with state
`failed`, a fully successful run ends in `running` with the allocated
ports recorded, and the final state is never `creating` or
`configuring`. -/
theorem C4_provision_failure_terminal (env : ProvisionEnv) (locReq : Bool)
    (db : DB) (id : String) (inst : Instance)
    (hfind : dbGet db id = some inst) :
    ∃ db2, create_container_async env locReq db id = .ok db2 ∧
      (∀ e, firstProvisionFailure env locReq = some e →
        dbGet db2 id =
          some { inst with status := "failed", error_message := some e }) ∧
      (firstProvisionFailure env locReq = none →
        ∃ info, env.createResult = .ok info ∧
          dbGet db2 id = some { inst with
            container_id := some info.container_id,
            vnc_port := some info.vnc_port,
            adb_port := some info.adb_port,
            status := "running",
            started_at := some env.now,
            last_heartbeat := some env.now }) ∧
      (∀ i2, dbGet db2 id = some i2 →
        i2.status = "running" ∨ i2.status = "failed") := by
  have hdb1 := dbGet_dbSet_same db id markConfiguring inst hfind
    (fun i => rfl)
  rcases hcr : env.createResult with e | info
  · simp only [create_container_async, hfind, hcr]
    refine ⟨_, rfl, ?_, ?_, ?_⟩
    · intro e2 he2
      simp only [firstProvisionFailure, hcr] at he2
      injection he2 with he2
      subst he2
      rw [dbGet_dbSet_same _ id (markFailed e) _ hdb1 (fun i => rfl)]
      rfl
    · intro hnone
      simp [firstProvisionFailure, hcr] at hnone
    · intro i2 hi2
      rw [dbGet_dbSet_same _ id (markFailed e) _ hdb1 (fun i => rfl)] at hi2
      injection hi2 with hi2
      subst hi2
      exact Or.inr rfl
  · rcases hcf : env.configureResult with e | u
    · simp only [create_container_async, hfind, hcr, hcf]
      refine ⟨_, rfl, ?_, ?_, ?_⟩
      · intro e2 he2
        simp only [firstProvisionFailure, hcr, hcf] at he2
        injection he2 with he2
        subst he2
        rw [dbGet_dbSet_same _ id (markFailed e) _ hdb1 (fun i => rfl)]
        rfl
      · intro hnone
        simp [firstProvisionFailure, hcr, hcf] at hnone
      · intro i2 hi2
        rw [dbGet_dbSet_same _ id (markFailed e) _ hdb1 (fun i => rfl)] at hi2
        injection hi2 with hi2
        subst hi2
        exact Or.inr rfl
    · have hfp : firstProvisionFailure env locReq =
          (match (if locReq then env.locationResult else .ok ()) with
           | .error e2 => some e2
           | .ok _ => none) := by
        simp only [firstProvisionFailure, hcr, hcf]
        cases locReq <;> simp
      rcases hloc : (if locReq then env.locationResult else .ok ()) with e | u2
      · simp only [create_container_async, hfind, hcr, hcf, hloc]
        refine ⟨_, rfl, ?_, ?_, ?_⟩
        · intro e2 he2
          rw [hfp, hloc] at he2
          have he3 : some e = some e2 := he2
          injection he3 with he3
          subst he3
          rw [dbGet_dbSet_same _ id (markFailed e) _ hdb1 (fun i => rfl)]
          rfl
        · intro hnone
          rw [hfp, hloc] at hnone
          exact Option.noConfusion (show some e = none from hnone)
        · intro i2 hi2
          rw [dbGet_dbSet_same _ id (markFailed e) _ hdb1 (fun i => rfl)] at hi2
          injection hi2 with hi2
          subst hi2
          exact Or.inr rfl
      · simp only [create_container_async, hfind, hcr, hcf, hloc]
        refine ⟨_, rfl, ?_, ?_, ?_⟩
        · intro e2 he2
          rw [hfp, hloc] at he2
          exact Option.noConfusion (show (none : Option String) = some e2 from he2)
        · intro hnone
          refine ⟨info, rfl, ?_⟩
          rw [dbGet_dbSet_same _ id (markRunning info env.now) _ hdb1
            (fun i => rfl)]
          rfl
        · intro i2 hi2
          rw [dbGet_dbSet_same _ id (markRunning info env.now) _ hdb1
            (fun i => rfl)] at hi2
          injection hi2 with hi2
          subst hi2
          exact Or.inl rfl

/-- Witness for C4: a failed runtime-adapter create (message boom) on a
fresh record yields a normal return whose record is `failed` with that
message. -/
theorem C4_provision_failure_terminal_witness :
    create_container_async ⟨.error "boom", .ok (), true, .ok (), 7⟩ false
        [sampleCreatingInstance] "i1" =
      .ok [{ sampleCreatingInstance with
             status := "failed", error_message := some "boom" }] ∧
    dbGet [{ sampleCreatingInstance with
             status := "failed", error_message := some "boom" }] "i1" =
      some { sampleCreatingInstance with
             status := "failed", error_message := some "boom" } := by
  obtain ⟨db2, hok, hfail, -, -⟩ :=
    C4_provision_failure_terminal ⟨.error "boom", .ok (), true, .ok (), 7⟩
      false [sampleCreatingInstance] "i1" sampleCreatingInstance (by decide)
  have hdb := hfail "boom" rfl
  have he : create_container_async ⟨.error "boom", .ok (), true, .ok (), 7⟩
      false [sampleCreatingInstance] "i1" =
      .ok [{ sampleCreatingInstance with
             status := "failed", error_message := some "boom" }] := by decide
  rw [he] at hok
  injection hok with h2
  subst h2
  exact ⟨he, hdb⟩

theorem sweepInstances_append (health : Option String → Except String Bool)
    (now : Nat) (l1 l2 : List Instance) :
    sweepInstances health now (l1 ++ l2) =
      ((sweepInstances health now l1).1 ++ (sweepInstances health now l2).1,
       (sweepInstances health now l1).2 ++ (sweepInstances health now l2).2) := by
  induction l1 with
  | nil => simp [sweepInstances]
  | cons hd tl ih => simp [sweepInstances, ih, List.append_assoc]

theorem sweepInstances_calls (health : Option String → Except String Bool)
    (now : Nat) (l : List Instance) :
    ∀ c ∈ (sweepInstances health now l).2,
      ∃ cid, c = OrchCall.checkHealth cid := by
  induction l with
  | nil =>
    intro c hc
    simp [sweepInstances] at hc
  | cons hd tl ih =>
    intro c hc
    by_cases hs : (hd.status == "running") = true
    · simp only [sweepInstances, hs, if_true, List.cons_append,
        List.nil_append, List.mem_cons] at hc
      rcases hc with hc | hc
      · exact ⟨hd.container_id, hc⟩
      · exact ih c hc
    · simp only [sweepInstances, hs, if_false, Bool.false_eq_true,
        List.nil_append] at hc
      exact ih c hc

/-- C5 (amended): In every sweep, each running instance is probed; a
healthy probe updates the heartbeat; an unhealthy probe or a raising
probe marks the instance failed with the corresponding message (no
restart is invoked — the sweep emits only health-probe calls); each
instance's outcome is independent of the others, so one instance's
exception does not abort the sweep. -/
theorem C5_health_sweep (health : Option String → Except String Bool)
    (now : Nat) (pre post : List Instance) (inst : Instance) :
    (check_instance_health health now (pre ++ inst :: post)).1 =
      (check_instance_health health now pre).1 ++
        (if inst.status == "running" then checkOne health now inst else inst) ::
        (check_instance_health health now post).1 ∧
    (inst.status = "running" →
      OrchCall.checkHealth inst.container_id ∈
        (check_instance_health health now (pre ++ inst :: post)).2) ∧
    (∀ c ∈ (check_instance_health health now (pre ++ inst :: post)).2,
      ∃ cid, c = OrchCall.checkHealth cid) ∧
    (health inst.container_id = .ok true →
      checkOne health now inst = { inst with last_heartbeat := some now }) ∧
    (health inst.container_id = .ok false →
      checkOne health now inst =
        { inst with status := "failed",
                    error_message := some "Container health check failed" }) ∧
    (∀ e, health inst.container_id = .error e →
      checkOne health now inst =
        { inst with status := "failed", error_message := some e }) := by
  refine ⟨?_, ?_, sweepInstances_calls health now _, ?_, ?_, ?_⟩
  · cases hs : (inst.status == "running") <;>
      simp [check_instance_health, sweepInstances_append, sweepInstances, hs]
  · intro hs
    have hbe : (inst.status == "running") = true := beq_iff_eq.mpr hs
    rw [check_instance_health, sweepInstances_append]
    simp [sweepInstances, hbe]
  · intro hh
    simp [checkOne, hh]
  · intro hh
    simp [checkOne, hh]
  · intro e hh
    simp [checkOne, hh]

/-- Witness for C5 (amended): a healthy probe of the running sample
instance updates its heartbeat, and the sweep emits its probe call. -/
theorem C5_health_sweep_witness :
    checkOne sampleHealthHealthy 9 sampleRunningInstance =
      { sampleRunningInstance with last_heartbeat := some 9 } ∧
    OrchCall.checkHealth (some "c1") ∈
      (check_instance_health sampleHealthHealthy 9 [sampleRunningInstance]).2 := by
  have h := C5_health_sweep sampleHealthHealthy 9 [] [] sampleRunningInstance
  exact ⟨h.2.2.2.1 rfl, h.2.1 rfl⟩

/-- C5 (counterexample): with a probe reporting unhealthy, the sweep
marks the running instance failed and emits only the health-probe call —
no restart (no orchestrator start or stop) is invoked on it. -/
theorem C5_no_restart_counterexample :
    sampleRunningInstance.status = "running" ∧
    (check_instance_health sampleHealthUnhealthy 9 [sampleRunningInstance]).1 =
      [{ sampleRunningInstance with
         status := "failed",
         error_message := some "Container health check failed" }] ∧
    (check_instance_health sampleHealthUnhealthy 9 [sampleRunningInstance]).2 =
      [OrchCall.checkHealth (some "c1")] := by
  decide

/-- C8 (amended): `start` is a no-op when the instance is already
running; otherwise it invokes the orchestrator start and updates status
and timestamps; `stop` always invokes the orchestrator stop and always
sets status and the stopped timestamp, with no already-stopped
short-circuit. -/
theorem C8_start_noop_stop_always (now : Nat) (db : DB) (id : String)
    (inst : Instance) (hfind : dbGet db id = some inst) :
    (inst.status = "running" →
      start_instance now db id = (.alreadyRunning, db, [])) ∧
    (inst.status ≠ "running" →
      (start_instance now db id).1 = .started ∧
      (start_instance now db id).2.2 = [.startC inst.container_id] ∧
      dbGet (start_instance now db id).2.1 id =
        some { inst with
               status := "running", started_at := some now,
               last_heartbeat := some now }) ∧
    ((stop_instance now db id).1 = .stopped ∧
     (stop_instance now db id).2.2 = [.stopC inst.container_id] ∧
     dbGet (stop_instance now db id).2.1 id =
       some { inst with status := "stopped", stopped_at := some now }) := by
  refine ⟨?_, ?_, ?_⟩
  · intro hs
    have hbe : (inst.status == "running") = true := beq_iff_eq.mpr hs
    simp [start_instance, hfind, hbe]
  · intro hs
    have hbe : (inst.status == "running") = false := beq_eq_false_iff_ne.mpr hs
    simp only [start_instance, hfind, hbe, Bool.false_eq_true, if_false]
    refine ⟨trivial, trivial, ?_⟩
    rw [dbGet_dbSet_same _ id (markStarted now) _ hfind (fun i => rfl)]
    rfl
  · simp only [stop_instance, hfind]
    refine ⟨trivial, trivial, ?_⟩
    rw [dbGet_dbSet_same _ id (markStopped now) _ hfind (fun i => rfl)]
    rfl

/-- Witness for C8 (amended): starting the already-running sample
instance is a no-op, and stopping it emits the orchestrator stop call. -/
theorem C8_start_noop_stop_always_witness :
    start_instance 9 [sampleRunningInstance] "i1" =
      (.alreadyRunning, [sampleRunningInstance], []) ∧
    (stop_instance 9 [sampleRunningInstance] "i1").2.2 =
      [OrchCall.stopC (some "c1")] := by
  have h := C8_start_noop_stop_always 9 [sampleRunningInstance] "i1"
    sampleRunningInstance (by decide)
  exact ⟨h.1 rfl, h.2.2.2.1⟩

/-- C8 (counterexample): stopping an instance that is already stopped is
not a no-op: the orchestrator stop is invoked and the stopped timestamp
is overwritten. -/
theorem C8_stop_not_noop_counterexample :
    sampleStoppedInstance.status = "stopped" ∧
    sampleStoppedInstance.stopped_at = some 5 ∧
    stop_instance 9 [sampleStoppedInstance] "i1" =
      (.stopped, [{ sampleStoppedInstance with stopped_at := some 9 }],
       [OrchCall.stopC (some "c1")]) := by
  decide

/-- C9 (amended): `restart` runs `stop`, a 2-tick pause, then `start`
on the same container: it emits exactly the orchestrator stop and start
calls for the stored container id, re-runs no provisioning, and the
record afterwards keeps the same id, stored specification, container id
and ports, with status running and refreshed timestamps. -/
theorem C9_restart_stop_start (now : Nat) (db : DB) (id : String)
    (inst : Instance) (hfind : dbGet db id = some inst) :
    (restart_instance now db id).1 = .restarted ∧
    (restart_instance now db id).2.2 =
      [.stopC inst.container_id, .startC inst.container_id] ∧
    dbGet (restart_instance now db id).2.1 id =
      some { inst with
             status := "running", stopped_at := some now,
             started_at := some (now + 2),
             last_heartbeat := some (now + 2) } := by
  have hstop := dbGet_dbSet_same db id (markStopped now) inst hfind
    (fun i => rfl)
  simp only [restart_instance, stop_instance, hfind, start_instance, hstop]
  have hbe : ((markStopped now inst).status == "running") = false := rfl
  simp only [hbe, Bool.false_eq_true, if_false]
  refine ⟨trivial, rfl, ?_⟩
  rw [dbGet_dbSet_same _ id (markStarted (now + 2)) _ hstop (fun i => rfl)]
  rfl

/-- Witness for C9 (amended): restarting the running sample instance
emits stop and start for container c1 and preserves its record. -/
theorem C9_restart_stop_start_witness :
    (restart_instance 10 [sampleRunningInstance] "i1").1 = .restarted ∧
    dbGet (restart_instance 10 [sampleRunningInstance] "i1").2.1 "i1" =
      some { sampleRunningInstance with
             status := "running", stopped_at := some 10,
             started_at := some 12, last_heartbeat := some 12 } := by
  have h := C9_restart_stop_start 10 [sampleRunningInstance] "i1"
    sampleRunningInstance (by decide)
  exact ⟨h.1, h.2.2⟩

/-- C9 (counterexample): restart makes exactly an orchestrator stop and
start call on the existing container — it emits no runtime-adapter
create and no configurator call, so the create/provisioning sequence is
not re-run. -/
theorem C9_no_reprovision_counterexample :
    (restart_instance 10 [sampleRunningInstance] "i1").2.2 =
      [OrchCall.stopC (some "c1"), OrchCall.startC (some "c1")] ∧
    List.countP (fun c => match c with
      | OrchCall.createC _ => true
      | OrchCall.configureC _ => true
      | _ => false) (restart_instance 10 [sampleRunningInstance] "i1").2.2 = 0 ∧
    dbGet (restart_instance 10 [sampleRunningInstance] "i1").2.1 "i1" =
      some { sampleRunningInstance with
             status := "running", stopped_at := some 10,
             started_at := some 12, last_heartbeat := some 12 } := by
  decide

end ACP
